import Mathlib

/-!
Verification of the progress & achievement scoring engine of the
yuldagilar backend.

Dates are modelled as integer day indices (days since 1970-01-01, so the
JS `Date.getDay()` of day `d` is `(d + 4) % 7`, day 0 being a Thursday).
The database rows of `daily_progress` are modelled by `ProgressRow`;
`total_points` is the generated column `Σ shart_i` of the schema.
Nullable numeric columns are modelled as plain values: every reader in the
source defaults `null` to `0` (`x || 0`), which coincides with storing `0`.
-/

namespace Yuldagilar

/-- A row of the `daily_progress` table (one user, one calendar day). -/
structure ProgressRow where
  tg_id : Int
  date : Int
  shart_1 : Int
  shart_2 : Int
  shart_3 : Int
  shart_4 : Int
  shart_5 : Int
  shart_6 : Int
  shart_7 : Int
  shart_8 : Int
  shart_9 : Int
  shart_10 : Int
  pages_read : Int
  distance_km : ℚ
deriving Repr, DecidableEq

/-- The generated `total_points` column: sum of the ten task flags. -/
def totalPoints (r : ProgressRow) : Int :=
  r.shart_1 + r.shart_2 + r.shart_3 + r.shart_4 + r.shart_5 +
  r.shart_6 + r.shart_7 + r.shart_8 + r.shart_9 + r.shart_10

/-- Model of `progressHistory.find(p => p.date === targetDate)` -/
def findRecord (h : List ProgressRow) (d : Int) : Option ProgressRow :=
  h.find? (fun p => p.date == d)

/-- The day's points, `0` when the day has no record. -/
def pointsAt (h : List ProgressRow) (d : Int) : Int :=
  match findRecord h d with
  | some r => totalPoints r
  | none => 0

/-- The backward day-walk shared by every streak loop in the source:
starting at `today` walk one day back at a time, counting while a record
exists for the exact date and satisfies `pred`; stop at the first missing
or non-qualifying day; `fuel` is the loop bound (21, 30, 60 or the
history length, depending on the copy). -/
def backStreak (h : List ProgressRow) (pred : ProgressRow → Bool) :
    Int → Nat → Nat
  | _, 0 => 0
  | today, fuel + 1 =>
    match findRecord h today with
    | some r => if pred r then backStreak h pred (today - 1) fuel + 1 else 0
    | none => 0

/-- Qualifying predicate of the "consistent" walks: any activity. -/
def anyActivity (r : ProgressRow) : Bool := 0 < totalPoints r

/-- Model of `consecutiveDays` loop of `updateUserAchievements` (taskController,
`for (let i = 0; i < 21; i++) ... total_points > 0 ... else break`). -/
def consistentConsecutiveDays (h : List ProgressRow) (today : Int) : Nat :=
  backStreak h anyActivity today 21

/-- Model of `AchievementService.checkConsistentAchievement`: 60-day backward walk,
earned iff the consecutive count reaches 21. -/
def checkConsistentAchievement (h : List ProgressRow) (today : Int) : Bool :=
  21 ≤ backStreak h anyActivity today 60

/-- Model of `progressHistory.reduce((sum, day) => sum + (day.pages_read || 0), 0)` -/
def sumPagesRead (h : List ProgressRow) : Int :=
  h.foldl (fun s day => s + day.pages_read) 0

/-- Model of `progressHistory.reduce((sum, day) => sum + (parseFloat(day.distance_km) || 0), 0)` -/
def sumDistanceKm (h : List ProgressRow) : ℚ :=
  h.foldl (fun s day => s + day.distance_km) 0

/-- Model of `AchievementService.checkReaderAchievement`: total pages ≥ 6000. -/
def checkReaderAchievement (h : List ProgressRow) : Bool :=
  6000 ≤ sumPagesRead h

/-- Model of `AchievementService.checkAthleteAchievement`: total distance ≥ 100. -/
def checkAthleteAchievement (h : List ProgressRow) : Bool :=
  (100 : ℚ) ≤ sumDistanceKm h

/-- The `allTasksCompleted` check: all ten flags equal 1. -/
def allTasksCompleted (r : ProgressRow) : Bool :=
  r.shart_1 == 1 && r.shart_2 == 1 && r.shart_3 == 1 && r.shart_4 == 1 &&
  r.shart_5 == 1 && r.shart_6 == 1 && r.shart_7 == 1 && r.shart_8 == 1 &&
  r.shart_9 == 1 && r.shart_10 == 1

/-- Model of `AchievementService.checkPerfectionistAchievement`: 60-day walk on
"all ten tasks completed", earned iff the count reaches 21. -/
def checkPerfectionistAchievement (h : List ProgressRow) (today : Int) : Bool :=
  21 ≤ backStreak h allTasksCompleted today 60

/-- Model of `AchievementService.checkEarlyBirdAchievement`: 60-day walk on
`shart_9 === 1`, earned iff the count reaches 21. -/
def checkEarlyBirdAchievement (h : List ProgressRow) (today : Int) : Bool :=
  21 ≤ backStreak h (fun r => r.shart_9 == 1) today 60

/-- Model of `StatisticsService.calculateUserStreak`: backward walk on any
activity whose loop bound is the length of the fetched history. -/
def calculateUserStreak (h : List ProgressRow) (today : Int) : Nat :=
  backStreak h anyActivity today h.length

/-- A row of the `users` table, reduced to what the achievement engine
reads: the persisted set of earned achievement ids. -/
structure UserRow where
  tg_id : Int
  achievements : List String
deriving Repr, DecidableEq

/-- Iteration order of `Object.values(ACHIEVEMENT_DEFINITIONS)`. -/
def ACHIEVEMENT_IDS : List String :=
  ["consistent", "reader", "athlete", "early_bird", "perfectionist"]

/-- The string-keyed dispatch `this[achievement.checkFunction](progressHistory)`
of `AchievementService.updateUserAchievements`. -/
def runCheckFunction (id : String) (h : List ProgressRow) (today : Int) : Bool :=
  if id = "consistent" then checkConsistentAchievement h today
  else if id = "reader" then checkReaderAchievement h
  else if id = "athlete" then checkAthleteAchievement h
  else if id = "early_bird" then checkEarlyBirdAchievement h today
  else if id = "perfectionist" then checkPerfectionistAchievement h today
  else false

/-- The ids pushed by the `updateUserAchievements` loop: achievements not
already in `current` whose check function returns true, in catalogue order. -/
def earnedNewAchievements (current : List String) (h : List ProgressRow)
    (today : Int) : List String :=
  ACHIEVEMENT_IDS.filter (fun id => !current.contains id && runCheckFunction id h today)

/-- Model of `newAchievements` of `AchievementService.updateUserAchievements`: a copy
of the current list extended by the newly earned ids; this is the value
persisted by `DatabaseService.updateUserAchievements` when it grew. -/
def newAchievementsList (current : List String) (h : List ProgressRow)
    (today : Int) : List String :=
  current ++ earnedNewAchievements current h today

/-- Model of `Array.from(new Set([...existingAchievements, ...currentAchievements]))`
of the taskController `updateUserAchievements`: the persisted union. -/
def mergedAchievements (existing earned : List String) : List String :=
  (existing ++ earned).dedup

/-- Model of `AchievementService.updateUserAchievements` with its fallible
collaborators made explicit: the history fetch and the user fetch may fail
(`.error`, caught by the surrounding `try/catch` which returns `[]`), the
user may be absent (`none`, the `!user` guard). Returns the newly earned
ids reported to the caller. -/
def updateUserAchievementsRun (histRes : Except String (List ProgressRow))
    (userRes : Except String (Option UserRow)) (today : Int) : List String :=
  match histRes, userRes with
  | .ok h, .ok (some user) => earnedNewAchievements user.achievements h today
  | .ok _, .ok none => []
  | _, _ => []

/-- The persisted achievement list after `AchievementService.updateUserAchievements`
runs on a loaded user and history (the update is only written when the list
grew; otherwise the stored list is unchanged, which is the same list). -/
def persistedAchievements (user : UserRow) (h : List ProgressRow)
    (today : Int) : List String :=
  newAchievementsList user.achievements h today

/-- Model of `Date.getDay()` of day index `d` (0 = Sunday, ..., 6 = Saturday):
day 0 = 1970-01-01 was a Thursday. -/
def dayOfWeek (d : Int) : Int := (d + 4) % 7

/-- Model of `daysFromMonday` of `getCurrentWeekData` (userController):
`dayOfWeek === 0 ? 6 : dayOfWeek - 1`. -/
def daysFromMonday (d : Int) : Int :=
  if dayOfWeek d = 0 then 6 else dayOfWeek d - 1

/-- Model of `weekDates` of `getCurrentWeekData`: the 7 dates from the Monday of
the current week through its Sunday. -/
def weekDates (today : Int) : List Int :=
  (List.range 7).map (fun (i : Nat) => (today - daysFromMonday today) + (i : Int))

/-- Model of `getCurrentWeekDailyPoints` (timezone-aware userController): one
`total_points` lookup per date of the current Monday-first week, missing
days contributing 0. -/
def getCurrentWeekDailyPoints (h : List ProgressRow) (today : Int) : List Int :=
  (weekDates today).map (fun d => pointsAt h d)

/-- Model of `StatisticsService.getWeeklyDailyPoints` (also `getWeeklyDailyPoints`
of the wired userController): the loop `for (let i = 6; i >= 0; i--)`
pushes the points of date `today - i`, i.e. the last 7 calendar days
ending at `today`, missing days contributing 0. -/
def getWeeklyDailyPoints (h : List ProgressRow) (today : Int) : List Int :=
  [6, 5, 4, 3, 2, 1, 0].map (fun i => pointsAt h (today - (i : Int)))

/-- A row of the `user_statistics` view, reduced to what the leaderboard
ranking reads: the user id, the approval flag, and the value of the
pre-aggregated score column selected for the requested (period, type)
pair (`orderField`). -/
structure StatRow where
  tg_id : Int
  is_approved : Bool
  score : Int
deriving Repr, DecidableEq

/-- One formatted leaderboard entry (`rank: index + 1`). -/
structure LBEntry where
  rank : Nat
  tg_id : Int
  score : Int
deriving Repr, DecidableEq

/-- The `current_user` attachment of the leaderboard response. -/
structure CurrentUserEntry where
  rank : Nat
  tg_id : Int
  score : Int
  in_top_list : Bool
deriving Repr, DecidableEq

/-- The composite ordering of the leaderboard query:
`.order(orderField, { ascending: false }).order('tg_id', { ascending: true })`. -/
def lbLe (a b : StatRow) : Bool :=
  b.score < a.score || (a.score == b.score && a.tg_id ≤ b.tg_id)

/-- Insertion step of the sort by `lbLe`. -/
def insertLB (a : StatRow) : List StatRow → List StatRow
  | [] => [a]
  | b :: t => if lbLe a b then a :: b :: t else b :: insertLB a t

/-- The rows in the order the database returns them: sorted by score
descending, ties broken by ascending `tg_id`. -/
def sortLB : List StatRow → List StatRow
  | [] => []
  | a :: t => insertLB a (sortLB t)

/-- The eligibility filter of the query:
`.eq('is_approved', true).gt(orderField, 0)`. -/
def eligibleRows (users : List StatRow) : List StatRow :=
  users.filter (fun u => u.is_approved && 0 < u.score)

/-- Model of `leaderboardData.map((user, index) => ({ rank: index + 1, ... }))`,
started at rank `k`. -/
def rankFrom (k : Nat) : List StatRow → List LBEntry
  | [] => []
  | u :: t => ⟨k, u.tg_id, u.score⟩ :: rankFrom (k + 1) t

/-- The `leaderboard` array of `getLeaderboard`: eligible rows, sorted,
truncated to `limit`, ranked `1, 2, ...` in order. -/
def getLeaderboardEntries (users : List StatRow) (limit : Nat) : List LBEntry :=
  rankFrom 1 ((sortLB (eligibleRows users)).take limit)

/-- Model of `total_participants`: approved users with a positive score for the
selected column, independent of `limit`. -/
def totalParticipants (users : List StatRow) : Nat :=
  (eligibleRows users).length

/-- The `current_user` logic of `getLeaderboard`: if the focus user is in
the returned top list, reuse that entry with `in_top_list: true`; otherwise
fetch their row (approved users only) and rank them as one plus the count
of approved users with a strictly greater score, `in_top_list: false`. -/
def currentUserEntry (users : List StatRow) (limit : Nat) (tgid : Int) :
    Option CurrentUserEntry :=
  match (getLeaderboardEntries users limit).find? (fun e => e.tg_id == tgid) with
  | some e => some ⟨e.rank, e.tg_id, e.score, true⟩
  | none =>
    match users.find? (fun u => u.tg_id == tgid && u.is_approved) with
    | some u =>
      some ⟨(users.filter (fun v => v.is_approved && u.score < v.score)).length + 1,
            u.tg_id, u.score, false⟩
    | none => none

/-- The request body of `POST /api/tasks/submit` after JS parsing: a task
flag is `none` when the field was absent (`undefined`/`null`), otherwise
the parsed integer; likewise for the two metrics. -/
structure SubmitBody where
  shart_1 : Option Int
  shart_2 : Option Int
  shart_3 : Option Int
  shart_4 : Option Int
  shart_5 : Option Int
  shart_6 : Option Int
  shart_7 : Option Int
  shart_8 : Option Int
  shart_9 : Option Int
  shart_10 : Option Int
  pages_read : Option Int
  distance_km : Option ℚ
deriving Repr, DecidableEq

/-- One step of the task validation loop: an error exactly when the flag
is present (`!== undefined && !== null`) and not 0 or 1. -/
def validTask (t : Option Int) : Bool :=
  match t with
  | none => true
  | some v => v == 0 || v == 1

/-- The `for` loop over the ten task values of `submitDailyProgress`. -/
def validateTasks (b : SubmitBody) : Bool :=
  validTask b.shart_1 && validTask b.shart_2 && validTask b.shart_3 &&
  validTask b.shart_4 && validTask b.shart_5 && validTask b.shart_6 &&
  validTask b.shart_7 && validTask b.shart_8 && validTask b.shart_9 &&
  validTask b.shart_10

/-- Model of `const pagesRead = parseInt(pages_read) || 0`: an absent field parses
to `NaN` and defaults to 0. -/
def pagesReadOf (b : SubmitBody) : Int := b.pages_read.getD 0

/-- Model of `const distanceKm = parseFloat(distance_km) || 0`. -/
def distanceKmOf (b : SubmitBody) : ℚ := b.distance_km.getD 0

/-- The `progressData` object of `submitDailyProgress`: every task flag is
`parseInt(shart_i) || 0`, so an absent flag is stored as 0. -/
def buildProgressData (tgid today : Int) (b : SubmitBody) : ProgressRow :=
  { tg_id := tgid
    date := today
    shart_1 := b.shart_1.getD 0
    shart_2 := b.shart_2.getD 0
    shart_3 := b.shart_3.getD 0
    shart_4 := b.shart_4.getD 0
    shart_5 := b.shart_5.getD 0
    shart_6 := b.shart_6.getD 0
    shart_7 := b.shart_7.getD 0
    shart_8 := b.shart_8.getD 0
    shart_9 := b.shart_9.getD 0
    shart_10 := b.shart_10.getD 0
    pages_read := pagesReadOf b
    distance_km := distanceKmOf b }

/-- The row-level upsert `onConflict: 'tg_id,date'`: the new row replaces
any existing row with the same (user, date) key. -/
def upsertDailyProgress (store : List ProgressRow) (r : ProgressRow) :
    List ProgressRow :=
  r :: store.filter (fun q => !(q.tg_id == r.tg_id && q.date == r.date))

/-- Read back the single row for a (user, date) key. -/
def getProgressRow (store : List ProgressRow) (tgid d : Int) :
    Option ProgressRow :=
  store.find? (fun q => q.tg_id == tgid && q.date == d)

/-- Model of `submitDailyProgress` (taskController), reduced to its store effect:
validate flags and metrics, build `progressData` for the resolved day,
upsert it, and answer with the stored row. The achievement step is fired
with `.catch` and never awaited, so its outcome `achRes` does not reach
the response. -/
def submitDailyProgress (store : List ProgressRow) (tgid today : Int)
    (b : SubmitBody) (achRes : Except String (List String)) :
    Except String (List ProgressRow × ProgressRow) :=
  if !validateTasks b then .error "shart must be 0 or 1"
  else if pagesReadOf b < 0 || 10000 < pagesReadOf b then
    .error "pages_read must be between 0 and 10000"
  else if distanceKmOf b < 0 || 1000 < distanceKmOf b then
    .error "distance_km must be between 0 and 1000"
  else
    let row := buildProgressData tgid today b
    .ok (upsertDailyProgress store row, row)

/-- Sample day with one task done (`total_points = 1`), for witnesses. -/
def activeDay (d : Int) : ProgressRow :=
  ⟨1, d, 1, 0, 0, 0, 0, 0, 0, 0, 0, 0, 0, 0⟩

/-- Sample day recording only pages read, for witnesses. -/
def readingDay (d pages : Int) : ProgressRow :=
  ⟨1, d, 0, 0, 0, 0, 0, 0, 0, 0, 0, 0, pages, 0⟩

/-! General lemmas about the backward streak walk -/

/-- The walk returns 0 whenever the starting day has no record. -/
theorem backStreak_eq_zero_of_none {h : List ProgressRow}
    {p : ProgressRow → Bool} {d : Int} (hd : findRecord h d = none) :
    ∀ n, backStreak h p d n = 0
  | 0 => rfl
  | n + 1 => by simp [backStreak, hd]

/-- With three qualifying days at `D`, `D-1`, `D-2` and no record at
`D-3`, the walk returns exactly 3, for every loop bound of at least 3. -/
theorem backStreak_stops_at_gap (h : List ProgressRow)
    (p : ProgressRow → Bool) (D : Int) (r0 r1 r2 : ProgressRow)
    (h0 : findRecord h D = some r0) (q0 : p r0 = true)
    (h1 : findRecord h (D - 1) = some r1) (q1 : p r1 = true)
    (h2 : findRecord h (D - 2) = some r2) (q2 : p r2 = true)
    (h3 : findRecord h (D - 3) = none) :
    ∀ n, backStreak h p D (n + 3) = 3 := by
  intro n
  have e1 : D - 1 - 1 = D - 2 := by ring
  have e2 : D - 2 - 1 = D - 3 := by ring
  show backStreak h p D (n + 2 + 1) = 3
  rw [backStreak, h0]
  simp only [q0, if_true]
  rw [show n + 2 = n + 1 + 1 from rfl, backStreak, h1]
  simp only [q1, if_true, e1]
  rw [show n + 1 = n + 0 + 1 from rfl, backStreak, h2]
  simp only [q2, if_true, e2]
  rw [backStreak_eq_zero_of_none h3]

/-- C1: the backward streak walk stops at the first missing day: when
days `D`, `D-1`, `D-2` have qualifying records and `D-3` has no record,
the taskController `consecutiveDays` counter is exactly 3, the
`checkConsistentAchievement` walk also counts exactly 3, and the
achievement is therefore not granted — whatever records exist at `D-4`
and earlier, the gap is never skipped. -/
theorem consistent_streak_stops_at_first_gap (h : List ProgressRow)
    (D : Int) (r0 r1 r2 : ProgressRow)
    (h0 : findRecord h D = some r0) (q0 : anyActivity r0 = true)
    (h1 : findRecord h (D - 1) = some r1) (q1 : anyActivity r1 = true)
    (h2 : findRecord h (D - 2) = some r2) (q2 : anyActivity r2 = true)
    (h3 : findRecord h (D - 3) = none) :
    consistentConsecutiveDays h D = 3 ∧
    backStreak h anyActivity D 60 = 3 ∧
    checkConsistentAchievement h D = false := by
  have b21 : backStreak h anyActivity D 21 = 3 :=
    backStreak_stops_at_gap h anyActivity D r0 r1 r2 h0 q0 h1 q1 h2 q2 h3 18
  have b60 : backStreak h anyActivity D 60 = 3 :=
    backStreak_stops_at_gap h anyActivity D r0 r1 r2 h0 q0 h1 q1 h2 q2 h3 57
  refine ⟨b21, b60, ?_⟩
  simp [checkConsistentAchievement, b60]

/-- C1 witness: days 100, 99, 98 active, day 97 missing, days 96 and 95
active again — the streak at day 100 is 3, not 5. -/
theorem consistent_streak_stops_at_first_gap_holds :
    consistentConsecutiveDays
      [activeDay 100, activeDay 99, activeDay 98, activeDay 96, activeDay 95]
      100 = 3 ∧
    backStreak
      [activeDay 100, activeDay 99, activeDay 98, activeDay 96, activeDay 95]
      anyActivity 100 60 = 3 ∧
    checkConsistentAchievement
      [activeDay 100, activeDay 99, activeDay 98, activeDay 96, activeDay 95]
      100 = false :=
  consistent_streak_stops_at_first_gap
    [activeDay 100, activeDay 99, activeDay 98, activeDay 96, activeDay 95]
    100 (activeDay 100) (activeDay 99) (activeDay 98)
    (by decide) (by decide) (by decide) (by decide) (by decide) (by decide)
    (by decide)

/-- C2: when today has no record, the current streak is 0 (and the
consistent achievement walk grants nothing), however much qualifying
history precedes today. -/
theorem streak_requires_today (h : List ProgressRow) (today : Int)
    (hnone : findRecord h today = none) :
    calculateUserStreak h today = 0 ∧
    checkConsistentAchievement h today = false := by
  refine ⟨backStreak_eq_zero_of_none hnone _, ?_⟩
  simp [checkConsistentAchievement, backStreak_eq_zero_of_none hnone]

/-- C2 witness: 21 active days ending yesterday (days 79–99), nothing on
day 100: the streak at day 100 is 0. -/
theorem streak_requires_today_holds :
    calculateUserStreak ((List.range 21).map (fun i => activeDay (99 - i)))
      100 = 0 ∧
    checkConsistentAchievement
      ((List.range 21).map (fun i => activeDay (99 - i))) 100 = false :=
  streak_requires_today ((List.range 21).map (fun i => activeDay (99 - i)))
    100 (by decide)

/-- C3: achievement evaluation is monotonic — an id already in the
persisted set is still there after `updateUserAchievements` writes its
new list, in both the AchievementService version (copy-then-append) and
the taskController version (set union), for every supplied history. -/
theorem achievements_monotonic (user : UserRow) (h : List ProgressRow)
    (today : Int) (a : String) (ha : a ∈ user.achievements) :
    a ∈ persistedAchievements user h today ∧
    ∀ earned, a ∈ mergedAchievements user.achievements earned := by
  constructor
  · exact List.mem_append_left _ ha
  · intro earned
    simp only [mergedAchievements, List.mem_dedup]
    exact List.mem_append_left _ ha

/-- C3 witness: a user holding "consistent" keeps it through a re-run on
an empty history (streak fully broken). -/
theorem achievements_monotonic_holds :
    "consistent" ∈ persistedAchievements ⟨1, ["consistent"]⟩ [] 100 ∧
    "consistent" ∈ mergedAchievements ["consistent"] [] :=
  ⟨(achievements_monotonic ⟨1, ["consistent"]⟩ [] 100 "consistent"
      (by decide)).1,
   (achievements_monotonic ⟨1, ["consistent"]⟩ [] 100 "consistent"
      (by decide)).2 []⟩

/-- C4: the reader rule is an exact threshold — a history whose
`pages_read` values sum to 6000 earns the achievement, one summing to
5999 does not. -/
theorem reader_exact_threshold (h : List ProgressRow) :
    (sumPagesRead h = 6000 → checkReaderAchievement h = true) ∧
    (sumPagesRead h = 5999 → checkReaderAchievement h = false) := by
  constructor <;> intro e <;> simp [checkReaderAchievement, e]

/-- C4 witness: a 6000-page history earns "reader", a 5999-page one does
not. -/
theorem reader_exact_threshold_holds :
    checkReaderAchievement [readingDay 100 3000, readingDay 99 3000] = true ∧
    checkReaderAchievement [readingDay 100 3000, readingDay 99 2999] = false :=
  ⟨(reader_exact_threshold [readingDay 100 3000, readingDay 99 3000]).1
      (by decide),
   (reader_exact_threshold [readingDay 100 3000, readingDay 99 2999]).2
      (by decide)⟩

/-- C9: achievement failure never fails a submission — when the history
fetch or the user fetch errors, the achievement step reports no new
achievements instead of raising, and the submission response does not
depend on the achievement outcome at all. -/
theorem achievement_failure_never_fails_submission :
    (∀ (e : String) (userRes : Except String (Option UserRow)) (today : Int),
        updateUserAchievementsRun (.error e) userRes today = []) ∧
    (∀ (histRes : Except String (List ProgressRow)) (e : String)
        (today : Int),
        updateUserAchievementsRun histRes (.error e) today = []) ∧
    (∀ (store : List ProgressRow) (tgid today : Int) (b : SubmitBody)
        (a1 a2 : Except String (List String)),
        submitDailyProgress store tgid today b a1 =
          submitDailyProgress store tgid today b a2) := by
  refine ⟨?_, ?_, ?_⟩
  · intro e userRes today
    cases userRes <;> rfl
  · intro histRes e today
    cases histRes <;> rfl
  · intro store tgid today b a1 a2
    rfl

/-- C10: an absent task flag is stored as 0, and the day's row is wholly
replaced on re-submission — after a successful submit, the (user, day)
lookup returns exactly the new row. -/
theorem absent_flags_stored_as_zero :
    (∀ (tgid today : Int) (b : SubmitBody),
        (b.shart_1 = none → (buildProgressData tgid today b).shart_1 = 0) ∧
        (b.shart_2 = none → (buildProgressData tgid today b).shart_2 = 0) ∧
        (b.shart_3 = none → (buildProgressData tgid today b).shart_3 = 0) ∧
        (b.shart_4 = none → (buildProgressData tgid today b).shart_4 = 0) ∧
        (b.shart_5 = none → (buildProgressData tgid today b).shart_5 = 0) ∧
        (b.shart_6 = none → (buildProgressData tgid today b).shart_6 = 0) ∧
        (b.shart_7 = none → (buildProgressData tgid today b).shart_7 = 0) ∧
        (b.shart_8 = none → (buildProgressData tgid today b).shart_8 = 0) ∧
        (b.shart_9 = none → (buildProgressData tgid today b).shart_9 = 0) ∧
        (b.shart_10 = none → (buildProgressData tgid today b).shart_10 = 0)) ∧
    (∀ (store : List ProgressRow) (tgid today : Int) (b : SubmitBody)
        (achRes : Except String (List String)) (s : List ProgressRow)
        (r : ProgressRow),
        submitDailyProgress store tgid today b achRes = .ok (s, r) →
        getProgressRow s tgid today = some r) := by
  constructor
  · intro tgid today b
    refine ⟨?_, ?_, ?_, ?_, ?_, ?_, ?_, ?_, ?_, ?_⟩ <;>
      (intro e; simp [buildProgressData, e])
  · intro store tgid today b achRes s r hok
    unfold submitDailyProgress at hok
    split at hok
    · exact absurd hok (by simp)
    · split at hok
      · exact absurd hok (by simp)
      · split at hok
        · exact absurd hok (by simp)
        · simp only [Except.ok.injEq, Prod.mk.injEq] at hok
          obtain ⟨hs, hr⟩ := hok
          subst hs
          subst hr
          simp [getProgressRow, upsertDailyProgress, buildProgressData,
            List.find?]

/-- C10 witness: day 100 first submitted with `shart_1 = 1`, then
re-submitted with `shart_1` absent — the stored row for day 100 now has
`shart_1 = 0`. -/
theorem absent_flags_stored_as_zero_holds :
    submitDailyProgress [] 5 100
      ⟨some 1, some 0, some 0, some 0, some 0, some 0, some 0, some 0,
        some 0, some 0, some 10, some 0⟩ (.ok []) =
      .ok ([buildProgressData 5 100
        ⟨some 1, some 0, some 0, some 0, some 0, some 0, some 0, some 0,
          some 0, some 0, some 10, some 0⟩],
        buildProgressData 5 100
        ⟨some 1, some 0, some 0, some 0, some 0, some 0, some 0, some 0,
          some 0, some 0, some 10, some 0⟩) ∧
    (buildProgressData 5 100
      ⟨some 1, some 0, some 0, some 0, some 0, some 0, some 0, some 0,
        some 0, some 0, some 10, some 0⟩).shart_1 = 1 ∧
    getProgressRow
      (upsertDailyProgress
        [buildProgressData 5 100
          ⟨some 1, some 0, some 0, some 0, some 0, some 0, some 0, some 0,
            some 0, some 0, some 10, some 0⟩]
        (buildProgressData 5 100
          ⟨none, some 0, some 0, some 0, some 0, some 0, some 0, some 0,
            some 0, some 0, some 10, some 0⟩))
      5 100 =
      some (buildProgressData 5 100
        ⟨none, some 0, some 0, some 0, some 0, some 0, some 0, some 0,
          some 0, some 0, some 10, some 0⟩) ∧
    (buildProgressData 5 100
      ⟨none, some 0, some 0, some 0, some 0, some 0, some 0, some 0,
        some 0, some 0, some 10, some 0⟩).shart_1 = 0 :=
  ⟨by rfl, by decide,
   absent_flags_stored_as_zero.2
     [buildProgressData 5 100
       ⟨some 1, some 0, some 0, some 0, some 0, some 0, some 0, some 0,
         some 0, some 0, some 10, some 0⟩]
     5 100
     ⟨none, some 0, some 0, some 0, some 0, some 0, some 0, some 0,
       some 0, some 0, some 10, some 0⟩ (.ok []) _ _ (by rfl),
   (absent_flags_stored_as_zero.1 5 100
     ⟨none, some 0, some 0, some 0, some 0, some 0, some 0, some 0,
       some 0, some 0, some 10, some 0⟩).1 rfl⟩

/-- C8: both weekly daily-points arrays always have exactly 7 elements,
whatever the history, and a day without a record contributes 0 (never an
omitted or null element). -/
theorem weekly_array_has_seven_elements (h : List ProgressRow)
    (today : Int) :
    (getWeeklyDailyPoints h today).length = 7 ∧
    (getCurrentWeekDailyPoints h today).length = 7 ∧
    (∀ d : Int, findRecord h d = none → pointsAt h d = 0) := by
  refine ⟨by simp [getWeeklyDailyPoints], ?_, ?_⟩
  · show ((weekDates today).map (fun d => pointsAt h d)).length = 7
    rw [List.length_map, weekDates, List.length_map, List.length_range]
  · intro d hd
    simp [pointsAt, hd]

/-- C8 witness: length 7 both for a brand-new user (no history) and for a
user with a record on every day of the week, and a missing day reads 0. -/
theorem weekly_array_has_seven_elements_holds :
    (getWeeklyDailyPoints [] 100).length = 7 ∧
    (getWeeklyDailyPoints ((List.range 7).map
      (fun i => activeDay (100 - i))) 100).length = 7 ∧
    (getCurrentWeekDailyPoints [] 100).length = 7 ∧
    pointsAt [] 100 = 0 :=
  ⟨(weekly_array_has_seven_elements [] 100).1,
   (weekly_array_has_seven_elements ((List.range 7).map
      (fun i => activeDay (100 - i))) 100).1,
   (weekly_array_has_seven_elements [] 100).2.1,
   (weekly_array_has_seven_elements [] 100).2.2 100 (by decide)⟩

/-- C7 counterexample: day 6 (1970-01-07) is a Wednesday; its Monday-first
week is days 4–10. With a single one-point record on Monday (day 4), the
timezone-aware controller array is `[1,0,...]` but the statistics-summary
array `getWeeklyDailyPoints` is the last-7-days window `[0,0,0,0,1,0,0]`:
its element 0 is not Monday's points. -/
theorem weekly_points_not_monday_indexed :
    dayOfWeek 6 = 3 ∧
    getCurrentWeekDailyPoints [activeDay 4] 6 = [1, 0, 0, 0, 0, 0, 0] ∧
    getWeeklyDailyPoints [activeDay 4] 6 = [0, 0, 0, 0, 1, 0, 0] ∧
    (getWeeklyDailyPoints [activeDay 4] 6).getD 0 0 = 0 ∧
    pointsAt [activeDay 4] (6 - daysFromMonday 6) = 1 ∧
    getWeeklyDailyPoints [activeDay 4] 6 ≠
      getCurrentWeekDailyPoints [activeDay 4] 6 := by
  decide

/-- C7 amended: the timezone-aware controller week (`getCurrentWeekData` /
`getCurrentWeekDailyPoints`) is genuinely Monday-first — its start day is
a Monday, its last day a Sunday, and its array maps those 7 dates in
order, missing days contributing 0 — while `getWeeklyDailyPoints` of the
statistics summary is the last-7-days window ending today (element `k` is
day `today - (6-k)`), which coincides with the Monday-first week exactly
when today is a Sunday. -/
theorem weekly_points_window_shapes (h : List ProgressRow) (today : Int) :
    dayOfWeek (today - daysFromMonday today) = 1 ∧
    dayOfWeek (today - daysFromMonday today + 6) = 0 ∧
    getCurrentWeekDailyPoints h today =
      (List.range 7).map
        (fun (i : Nat) => pointsAt h (today - daysFromMonday today + (i : Int))) ∧
    (∀ k : Nat, k < 7 →
      (getWeeklyDailyPoints h today).getD k 0 =
        pointsAt h (today - (6 - (k : Int)))) ∧
    (dayOfWeek today = 0 →
      getWeeklyDailyPoints h today = getCurrentWeekDailyPoints h today) := by
  refine ⟨?_, ?_, rfl, ?_, ?_⟩
  · unfold dayOfWeek daysFromMonday dayOfWeek
    split <;> omega
  · unfold dayOfWeek daysFromMonday dayOfWeek
    split <;> omega
  · intro k hk
    interval_cases k <;> simp [getWeeklyDailyPoints]
  · intro hsun
    have hm : daysFromMonday today = 6 := by
      unfold daysFromMonday
      rw [hsun]
      rfl
    simp only [getWeeklyDailyPoints, getCurrentWeekDailyPoints, weekDates,
      hm, List.map_map]
    norm_num [List.range_succ]
    ring_nf
    simp

/-- C7 amended witness: day 3 (1970-01-04) is a Sunday, where the two
arrays coincide; with one record on that Sunday both arrays end in its
points. -/
theorem weekly_points_window_shapes_holds :
    dayOfWeek 3 = 0 ∧
    getWeeklyDailyPoints [activeDay 3] 3 =
      getCurrentWeekDailyPoints [activeDay 3] 3 ∧
    (getWeeklyDailyPoints [activeDay 3] 3).getD 6 0 = pointsAt [activeDay 3] 3 :=
  ⟨by decide,
   (weekly_points_window_shapes [activeDay 3] 3).2.2.2.2 (by decide),
   by
     rw [(weekly_points_window_shapes [activeDay 3] 3).2.2.2.1 6 (by decide)]
     decide⟩

/-! General lemmas about the leaderboard sort -/

/-- The composite ordering is total. -/
theorem lbLe_total (a b : StatRow) : lbLe a b = true ∨ lbLe b a = true := by
  simp only [lbLe, Bool.or_eq_true, Bool.and_eq_true, decide_eq_true_eq,
    beq_iff_eq]
  omega

/-- The composite ordering is transitive. -/
theorem lbLe_trans {a b c : StatRow} (h1 : lbLe a b = true)
    (h2 : lbLe b c = true) : lbLe a c = true := by
  simp only [lbLe, Bool.or_eq_true, Bool.and_eq_true, decide_eq_true_eq,
    beq_iff_eq] at h1 h2 ⊢
  omega

/-- Membership through an insertion step. -/
theorem mem_insertLB (x a : StatRow) (l : List StatRow) :
    x ∈ insertLB a l ↔ x = a ∨ x ∈ l := by
  induction l with
  | nil => simp [insertLB]
  | cons b t ih =>
    by_cases hb : lbLe a b = true
    · simp [insertLB, hb]
    · rw [insertLB, if_neg hb]
      simp only [List.mem_cons, ih]
      tauto

/-- Inserting preserves sortedness. -/
theorem pairwise_insertLB (a : StatRow) (l : List StatRow)
    (hl : l.Pairwise (fun u v => lbLe u v = true)) :
    (insertLB a l).Pairwise (fun u v => lbLe u v = true) := by
  induction l with
  | nil => simp [insertLB]
  | cons b t ih =>
    rcases List.pairwise_cons.mp hl with ⟨hb, ht⟩
    by_cases hab : lbLe a b = true
    · rw [insertLB, if_pos hab]
      refine List.pairwise_cons.mpr ⟨?_, hl⟩
      intro x hx
      rcases List.mem_cons.mp hx with rfl | hx
      · exact hab
      · exact lbLe_trans hab (hb x hx)
    · rw [insertLB, if_neg hab]
      refine List.pairwise_cons.mpr ⟨?_, ih ht⟩
      intro x hx
      rcases (mem_insertLB x a t).mp hx with hxa | hx
      · rw [hxa]
        rcases lbLe_total a b with h | h
        · exact absurd h hab
        · exact h
      · exact hb x hx

/-- Insertion is a permutation of consing. -/
theorem insertLB_perm (a : StatRow) (l : List StatRow) :
    List.Perm (insertLB a l) (a :: l) := by
  induction l with
  | nil => exact List.Perm.refl _
  | cons b t ih =>
    by_cases hab : lbLe a b = true
    · rw [insertLB, if_pos hab]
    · rw [insertLB, if_neg hab]
      exact (ih.cons b).trans (List.Perm.swap a b t)

/-- The sort is a permutation of its input. -/
theorem sortLB_perm (l : List StatRow) : List.Perm (sortLB l) l := by
  induction l with
  | nil => exact List.Perm.refl _
  | cons a t ih => exact (insertLB_perm a (sortLB t)).trans (ih.cons a)

/-- The sort's output is sorted by the composite ordering. -/
theorem sortLB_pairwise (l : List StatRow) :
    (sortLB l).Pairwise (fun u v => lbLe u v = true) := by
  induction l with
  | nil => exact List.Pairwise.nil
  | cons a t ih => exact pairwise_insertLB a (sortLB t) ih

/-- Indexing the ranked entries: element `i` is row `i` tagged with rank
`k + i`. -/
theorem rankFrom_get? (l : List StatRow) : ∀ (k i : Nat),
    (rankFrom k l).get? i =
      (l.get? i).map (fun u => ⟨k + i, u.tg_id, u.score⟩) := by
  induction l with
  | nil => intro k i; cases i <;> simp [rankFrom]
  | cons u t ih =>
    intro k i
    cases i with
    | zero => simp [rankFrom]
    | succ i =>
      show (rankFrom (k + 1) t).get? i = _
      rw [ih (k + 1) i]
      have e : k + 1 + i = k + (i + 1) := by omega
      simp [e]

/-- The user ids stay pairwise distinct through eligibility filtering,
sorting and truncation to the top `limit`. -/
theorem nodup_ids_take_sort (users : List StatRow) (limit : Nat)
    (hids : (users.map (fun u => u.tg_id)).Nodup) :
    (((sortLB (eligibleRows users)).take limit).map
      (fun u => u.tg_id)).Nodup := by
  have h1 : ((eligibleRows users).map (fun u => u.tg_id)).Nodup :=
    hids.sublist ((List.filter_sublist users).map _)
  have h2 : ((sortLB (eligibleRows users)).map (fun u => u.tg_id)).Nodup :=
    (((sortLB_perm (eligibleRows users)).map _).nodup_iff).mpr h1
  exact h2.sublist ((List.take_sublist _ _).map _)

/-- C5: leaderboard entries are sorted by score descending with ties
broken by ascending user id (for any user table with distinct ids), and
entry `i` carries rank `i + 1` — ranks are 1-based and assigned in sorted
order with no gaps. -/
theorem leaderboard_sorted_ties_by_id (users : List StatRow) (limit : Nat)
    (hids : (users.map (fun u => u.tg_id)).Nodup) :
    ∀ (i j : Nat) (ei ej : LBEntry), i < j →
      (getLeaderboardEntries users limit).get? i = some ei →
      (getLeaderboardEntries users limit).get? j = some ej →
      ei.rank = i + 1 ∧ ej.rank = j + 1 ∧
      (ej.score < ei.score ∨ (ei.score = ej.score ∧ ei.tg_id < ej.tg_id)) := by
  intro i j ei ej hij hi hj
  have hpl : ((sortLB (eligibleRows users)).take limit).Pairwise
      (fun u v => lbLe u v = true) :=
    (sortLB_pairwise (eligibleRows users)).sublist (List.take_sublist _ _)
  have hnd := nodup_ids_take_sort users limit hids
  simp only [getLeaderboardEntries, rankFrom_get?] at hi hj
  rcases Option.map_eq_some'.mp hi with ⟨ui, hui, hei⟩
  rcases Option.map_eq_some'.mp hj with ⟨uj, huj, hej⟩
  rcases List.get?_eq_some.mp hui with ⟨hilt, hgi⟩
  rcases List.get?_eq_some.mp huj with ⟨hjlt, hgj⟩
  have hR := List.pairwise_iff_get.mp hpl ⟨i, hilt⟩ ⟨j, hjlt⟩
    (Fin.mk_lt_mk.mpr hij)
  rw [hgi, hgj] at hR
  have hndl : ((sortLB (eligibleRows users)).take limit).Pairwise
      (fun a b => ¬a.tg_id = b.tg_id) := List.pairwise_map.mp hnd
  have hne := List.pairwise_iff_get.mp hndl ⟨i, hilt⟩ ⟨j, hjlt⟩
    (Fin.mk_lt_mk.mpr hij)
  rw [hgi, hgj] at hne
  subst hei hej
  simp only [lbLe, Bool.or_eq_true, Bool.and_eq_true, decide_eq_true_eq,
    beq_iff_eq] at hR
  refine ⟨?_, ?_, ?_⟩
  · show 1 + i = i + 1
    omega
  · show 1 + j = j + 1
    omega
  · show uj.score < ui.score ∨ (ui.score = uj.score ∧ ui.tg_id < uj.tg_id)
    omega

/-- C5 witness: scores [50, 50, 30] held by ids [7, 3, 9] produce entries
ranked 1 (id 3), 2 (id 7), 3 (id 9): id 3 beats id 7 on the tie, id 9 has
rank 3. -/
theorem leaderboard_sorted_ties_by_id_holds :
    getLeaderboardEntries
      [⟨7, true, 50⟩, ⟨3, true, 50⟩, ⟨9, true, 30⟩] 100 =
      [⟨1, 3, 50⟩, ⟨2, 7, 50⟩, ⟨3, 9, 30⟩] ∧
    ((⟨1, 3, 50⟩ : LBEntry).rank = 0 + 1 ∧
     (⟨2, 7, 50⟩ : LBEntry).rank = 1 + 1 ∧
     ((⟨2, 7, 50⟩ : LBEntry).score < (⟨1, 3, 50⟩ : LBEntry).score ∨
      ((⟨1, 3, 50⟩ : LBEntry).score = (⟨2, 7, 50⟩ : LBEntry).score ∧
       (⟨1, 3, 50⟩ : LBEntry).tg_id < (⟨2, 7, 50⟩ : LBEntry).tg_id))) :=
  ⟨by decide,
   leaderboard_sorted_ties_by_id
     [⟨7, true, 50⟩, ⟨3, true, 50⟩, ⟨9, true, 30⟩] 100 (by decide)
     0 1 ⟨1, 3, 50⟩ ⟨2, 7, 50⟩ (by decide) (by decide) (by decide)⟩

/-- C6: a focus user who is approved but absent from the returned top
list is attached separately with rank one plus the number of eligible
users whose score is strictly greater than theirs, flagged
`in_top_list: false`. -/
theorem focus_user_out_of_window_rank (users : List StatRow) (limit : Nat)
    (fid : Int) (u : StatRow)
    (hout : (getLeaderboardEntries users limit).find?
      (fun e => e.tg_id == fid) = none)
    (hfind : users.find? (fun v => v.tg_id == fid && v.is_approved) = some u)
    (hnn : 0 ≤ u.score) :
    currentUserEntry users limit fid =
      some ⟨((eligibleRows users).filter
              (fun v => u.score < v.score)).length + 1,
            u.tg_id, u.score, false⟩ := by
  have hlen : (users.filter
      (fun v => v.is_approved && decide (u.score < v.score))).length =
      ((eligibleRows users).filter
        (fun v => decide (u.score < v.score))).length := by
    rw [eligibleRows, List.filter_filter]
    congr 1
    refine List.filter_congr ?_
    intro v hv
    cases hA : v.is_approved
    · simp
    · by_cases hs : u.score < v.score
      · have h0 : (0 : Int) < v.score := by omega
        simp [hs, h0]
      · simp [hs]
  simp only [currentUserEntry, hout, hfind]
  rw [← hlen]

/-- C6 witness: five eligible users with scores 100…60, `limit = 1`,
focus user id 3 (score 80, true rank 3): the top list has one entry and
the focus entry has rank 3 with `in_top_list = false`. -/
theorem focus_user_out_of_window_rank_holds :
    getLeaderboardEntries
      [⟨1, true, 100⟩, ⟨2, true, 90⟩, ⟨3, true, 80⟩, ⟨4, true, 70⟩,
        ⟨5, true, 60⟩] 1 = [⟨1, 1, 100⟩] ∧
    totalParticipants
      [⟨1, true, 100⟩, ⟨2, true, 90⟩, ⟨3, true, 80⟩, ⟨4, true, 70⟩,
        ⟨5, true, 60⟩] = 5 ∧
    currentUserEntry
      [⟨1, true, 100⟩, ⟨2, true, 90⟩, ⟨3, true, 80⟩, ⟨4, true, 70⟩,
        ⟨5, true, 60⟩] 1 3 = some ⟨3, 3, 80, false⟩ :=
  ⟨by decide, by decide,
   by
     rw [focus_user_out_of_window_rank
       [⟨1, true, 100⟩, ⟨2, true, 90⟩, ⟨3, true, 80⟩, ⟨4, true, 70⟩,
         ⟨5, true, 60⟩] 1 3 ⟨3, true, 80⟩
       (by decide) (by decide) (by decide)]
     decide⟩

end Yuldagilar
